import Mathlib

/-!
# Verification of the FixNet repair-ordering client

Shallow embedding of the core logic of the FixNet client (`src/App.tsx`,
`src/api.ts`): the pricing estimator with its three-tier fallback, the
model-prices parsing, the haversine distance and distance-based center
ranking, the request-submission flow, the HTTP wrapper, and the
support-message flow.  JavaScript numbers are modelled by `ℚ` (exact
arithmetic at the formula level) except for the trigonometric distance
code, which is modelled over `ℝ`.
-/

namespace Fixnet

/-! ## Pricing estimator (`App.tsx`, `Repair`) -/

/-- A base price range as held in the client price map and the fallback
table: the object shape `{ min, max, hours }` in `App.tsx`. -/
structure Base where
  min : ℚ
  max : ℚ
  hours : ℚ
deriving DecidableEq, Repr

/-- JavaScript `Math.round`: rounds to the nearest integer, halves toward
positive infinity. -/
def jsRound (q : ℚ) : ℤ := ⌊q + 1/2⌋

/-- A JavaScript object keyed by issue code is observed only through
property lookup, so it is modelled as an association list read with
`List.lookup` (first binding wins, matching the assignment-shadowing used
when the map is built). -/
abbrev PriceMap := List (String × Base)

/-- The static fallback table `FALLBACK_PRICES` from `App.tsx` (lines
743–754), an object literal keyed by issue code. -/
def FALLBACK_PRICES : PriceMap :=
  [("screen", ⟨7000, 12000, 2⟩),
   ("battery", ⟨3000, 6000, 1⟩),
   ("back", ⟨4000, 9000, 2⟩),
   ("camera", ⟨3500, 8000, 1.5⟩),
   ("charging", ⟨2500, 6000, 1⟩),
   ("water", ⟨5000, 9000, 3⟩),
   ("speaker", ⟨2000, 5000, 1⟩)]

/-- `currentBase` from `App.tsx` (lines 872–876):
`priceMap[issueCode] || FALLBACK_PRICES[issueCode] || default`, where
the generic default is `min 9000, max 12000, hours 1`.  A present entry is
an object, hence truthy, so `||` selects the first defined entry. -/
def currentBase (priceMap : PriceMap) (issueCode : String) : Base :=
  match priceMap.lookup issueCode with
  | some b => b
  | none =>
    match FALLBACK_PRICES.lookup issueCode with
    | some b => b
    | none => ⟨9000, 12000, 1⟩

/-- The derived estimate `{ priceMid, time }` from `App.tsx`. -/
structure Estimate where
  priceMid : ℚ
  time : ℤ
deriving DecidableEq, Repr

/-- The `estimate` memo from `App.tsx` (lines 877–887): urgency-dependent
price and time multipliers applied to a base range.  `urgency` is the
slider value (a JS number). -/
def estimate (base : Base) (urgency : ℕ) : Estimate :=
  let coefUrgency : ℚ := if urgency = 3 then 1.25 else if urgency = 2 then 1.1 else 1
  let priceMid := ((base.min + base.max) / 2) * coefUrgency
  let time := max 1 (jsRound (base.hours *
    (if urgency = 3 then 0.8 else if urgency = 2 then 1.0 else 1.2)))
  ⟨priceMid, time⟩

/-- The price-multiplier table as the specification words it:
Standard→1.0, Faster→1.1, Urgent→1.25. -/
def priceMultiplier : ℕ → ℚ
  | 2 => 1.1
  | 3 => 1.25
  | _ => 1

/-- The time-multiplier table as the specification words it:
Standard→1.2, Faster→1.0, Urgent→0.8. -/
def timeMultiplier : ℕ → ℚ
  | 2 => 1.0
  | 3 => 0.8
  | _ => 1.2

/-- C1: for every price range and every urgency level `u ∈ {1,2,3}`, the
estimator returns `midPrice = ((min + max) / 2) * p(u)` and
`etaHours = max(1, round(hours * t(u)))` with the spec's multiplier tables,
and `etaHours ≥ 1` holds for every input. -/
theorem estimate_formula (base : Base) (u : ℕ) :
    (u = 1 ∨ u = 2 ∨ u = 3 →
      (estimate base u).priceMid = ((base.min + base.max) / 2) * priceMultiplier u ∧
      (estimate base u).time = max 1 (jsRound (base.hours * timeMultiplier u))) ∧
    1 ≤ (estimate base u).time := by
  constructor
  · rintro (rfl | rfl | rfl) <;> exact ⟨rfl, rfl⟩
  · exact le_max_left _ _

/-- Witness for `estimate_formula` at the range (100, 200, 3) and urgency 2. -/
theorem estimate_formula_witness :
    (estimate ⟨100, 200, 3⟩ 2).priceMid = ((100 + 200) / 2 : ℚ) * priceMultiplier 2 ∧
    (estimate ⟨100, 200, 3⟩ 2).time = max 1 (jsRound (3 * timeMultiplier 2)) ∧
    1 ≤ (estimate ⟨100, 200, 3⟩ 2).time :=
  ⟨((estimate_formula ⟨100, 200, 3⟩ 2).1 (Or.inr (Or.inl rfl))).1,
   ((estimate_formula ⟨100, 200, 3⟩ 2).1 (Or.inr (Or.inl rfl))).2,
   (estimate_formula ⟨100, 200, 3⟩ 2).2⟩

/-- C2: the base range is chosen by a total three-tier fallback (server price
map entry, else static fallback table entry, else the generic default
(9000, 12000, 1)); with no server price, issue "screen" at urgency Standard
estimates midPrice 9500 and etaHours 2, and an issue code absent from both
tables estimates midPrice 10500 and etaHours 1. -/
theorem currentBase_three_tier (pm : PriceMap) (code : String) :
    (∀ b, pm.lookup code = some b → currentBase pm code = b) ∧
    (pm.lookup code = none →
      ∀ f, FALLBACK_PRICES.lookup code = some f → currentBase pm code = f) ∧
    (pm.lookup code = none → FALLBACK_PRICES.lookup code = none →
      currentBase pm code = ⟨9000, 12000, 1⟩) ∧
    estimate (currentBase [] "screen") 1 = ⟨9500, 2⟩ ∧
    estimate (currentBase [] "unknown-issue") 1 = ⟨10500, 1⟩ := by
  have hscreen : currentBase [] "screen" = ⟨7000, 12000, 2⟩ := by decide
  have hunknown : currentBase [] "unknown-issue" = ⟨9000, 12000, 1⟩ := by decide
  refine ⟨?_, ?_, ?_,
    by norm_num [estimate, hscreen, jsRound],
    by norm_num [estimate, hunknown, jsRound]⟩
  · intro b hb; simp [currentBase, hb]
  · intro h f hf; simp [currentBase, h, hf]
  · intro h hf; simp [currentBase, h, hf]

/-- Witness for `currentBase_three_tier`: a server-supplied entry wins. -/
theorem currentBase_three_tier_witness :
    currentBase [("x", ⟨1, 2, 3⟩)] "x" = ⟨1, 2, 3⟩ :=
  (currentBase_three_tier [("x", ⟨1, 2, 3⟩)] "x").1 ⟨1, 2, 3⟩ (by decide)

/-! ## JavaScript string and number helpers

The client calls a few host builtins: `String.prototype.trim`,
`Number(...)` and the regex replaces used for validation.  They are given
executable models here. -/

/-- Whitespace as recognised by the host's `trim` (modelled by the ASCII
whitespace characters; the full Unicode whitespace set of JS is outside the
model). -/
def isJsWhitespace (c : Char) : Bool := c.isWhitespace

/-- Model of JavaScript `String.prototype.trim`: strips leading and
trailing whitespace. -/
def jsTrim (s : String) : String :=
  ⟨((s.data.dropWhile isJsWhitespace).reverse.dropWhile isJsWhitespace).reverse⟩

/-- Length of `s.replace(/\D/g, "")`: the number of decimal-digit
characters in `s` (the regex class `\D` is exactly `[^0-9]`). -/
def digitCount (s : String) : ℕ := (s.data.filter Char.isDigit).length

/-- A JavaScript number as classified by the estimator and validation code:
a finite value, an infinity, or `NaN`. -/
inductive JSNum where
  | fin (q : ℚ)
  | inf (neg : Bool)
  | nan
deriving DecidableEq, Repr

/-- `Number.isFinite`. -/
def JSNum.isFinite : JSNum → Bool
  | .fin _ => true
  | _ => false

/-- JS truthiness of a number: `0`, `-0` and `NaN` are falsy; every other
number, infinities included, is truthy. -/
def JSNum.truthy : JSNum → Bool
  | .fin q => q ≠ 0
  | .inf _ => true
  | .nan => false

/-- Numeric value of a list of decimal digit characters. -/
def digitsVal (cs : List Char) : ℕ :=
  cs.foldl (fun a c => a * 10 + (c.toNat - 48)) 0

/-- Numeric value of digits in a given radix, `none` when empty or when a
character is not a digit of that radix. -/
def radixVal (digit : Char → Option ℕ) (base : ℕ) (cs : List Char) : Option ℕ :=
  if cs.isEmpty then none
  else cs.foldl (fun acc c => acc.bind fun a => (digit c).map fun d => a * base + d) (some 0)

/-- Hexadecimal digit value. -/
def hexDigitVal (c : Char) : Option ℕ :=
  if c.isDigit then some (c.toNat - 48)
  else if 'a' ≤ c ∧ c ≤ 'f' then some (c.toNat - 87)
  else if 'A' ≤ c ∧ c ≤ 'F' then some (c.toNat - 55)
  else none

/-- Octal digit value. -/
def octDigitVal (c : Char) : Option ℕ :=
  if '0' ≤ c ∧ c ≤ '7' then some (c.toNat - 48) else none

/-- Binary digit value. -/
def binDigitVal (c : Char) : Option ℕ :=
  if c = '0' ∨ c = '1' then some (c.toNat - 48) else none

/-- Parse an unsigned decimal literal `digits [. digits] [e[±]digits]` (also
`.digits` and `digits.`), as accepted by JS `Number(...)`. -/
def parseUnsignedDecimal (cs : List Char) : Option ℚ :=
  let mantExp : List Char × Option (List Char) :=
    match cs.findIdx? (fun c => c == 'e' || c == 'E') with
    | some i => (cs.take i, some (cs.drop (i + 1)))
    | none => (cs, none)
  let mant := mantExp.1
  let mq : Option ℚ :=
    match mant.findIdx? (fun c => c == '.') with
    | some i =>
      let ip := mant.take i
      let fp := mant.drop (i + 1)
      if ip.isEmpty && fp.isEmpty then none
      else if ip.all Char.isDigit && fp.all Char.isDigit then
        some ((digitsVal ip : ℚ) + (digitsVal fp : ℚ) / (10 : ℚ) ^ fp.length)
      else none
    | none =>
      if mant.isEmpty then none
      else if mant.all Char.isDigit then some (digitsVal mant : ℚ) else none
  match mantExp.2 with
  | none => mq
  | some e =>
    let signDigits : Bool × List Char :=
      match e with
      | '+' :: rest => (false, rest)
      | '-' :: rest => (true, rest)
      | _ => (false, e)
    if signDigits.2.isEmpty || !signDigits.2.all Char.isDigit then none
    else mq.map fun q =>
      if signDigits.1 then q / (10 : ℚ) ^ digitsVal signDigits.2
      else q * (10 : ℚ) ^ digitsVal signDigits.2

/-- Model of the host builtin `Number(string)`: trim whitespace, empty
string is `0`, `Infinity` literals, signed decimal literals, unsigned
hex/octal/binary literals; anything else is `NaN`. -/
def jsStringToNumber (s : String) : JSNum :=
  let t := (jsTrim s).data
  if t.isEmpty then .fin 0
  else if t = "Infinity".data || t = "+Infinity".data then .inf false
  else if t = "-Infinity".data then .inf true
  else
    let radix : Option (ℕ × (Char → Option ℕ) × List Char) :=
      match t with
      | '0' :: 'x' :: rest => some (16, hexDigitVal, rest)
      | '0' :: 'X' :: rest => some (16, hexDigitVal, rest)
      | '0' :: 'o' :: rest => some (8, octDigitVal, rest)
      | '0' :: 'O' :: rest => some (8, octDigitVal, rest)
      | '0' :: 'b' :: rest => some (2, binDigitVal, rest)
      | '0' :: 'B' :: rest => some (2, binDigitVal, rest)
      | _ => none
    match radix with
    | some (base, digit, rest) =>
      match radixVal digit base rest with
      | some n => .fin n
      | none => .nan
    | none =>
      match t with
      | '+' :: rest =>
        match parseUnsignedDecimal rest with
        | some q => .fin q
        | none => .nan
      | '-' :: rest =>
        match parseUnsignedDecimal rest with
        | some q => .fin (-q)
        | none => .nan
      | _ =>
        match parseUnsignedDecimal t with
        | some q => .fin q
        | none => .nan

/-! ## Request submission flow (`App.tsx`, `Repair.submit`) -/

/-- JS truthiness of a `string | null` value: `null` and the empty string
are falsy. -/
def strTruthy : Option String → Bool
  | none => false
  | some s => s ≠ ""

/-- JS truthiness of a `number | null` id: `null` and `0` are falsy. -/
def numTruthy : Option ℤ → Bool
  | none => false
  | some n => n ≠ 0

/-- `nameOk` from `App.tsx` (line 772): `name.trim().length >= 2`.  Since a
trimmed string starts and ends with non-whitespace, this holds exactly when
the name has at least two non-whitespace characters. -/
def nameOk (name : String) : Bool := 2 ≤ (jsTrim name).length

/-- `phoneOk` from `App.tsx` (line 771):
`phone.replace(/\D/g, "").length >= 7`. -/
def phoneOk (phone : String) : Bool := 7 ≤ digitCount phone

/-- The `Repair` component state relevant to `submit`: form selections and
the contact-dialog fields. -/
structure RepairState where
  selectedCenterId : Option String
  agree : Bool
  name : String
  phone : String
  desc : String
  brandId : Option ℤ
  modelId : Option ℤ
  showDialog : Bool
  selectedBrandName : String
  selectedModelName : String
  issueCode : String
  urgency : ℕ
deriving DecidableEq, Repr

/-- The body of `POST /repairs/` as assembled by `submit`. -/
structure Payload where
  brand : String
  model : String
  issue : String
  urgency : ℕ
  description : String
  center : JSNum
  customer_name : String
  customer_phone : String
  agree_to_offer : Bool
deriving DecidableEq, Repr

/-- The guard at the top of `submit` (lines 890–898), negated: `submit`
proceeds iff the center id, agreement, name, phone, brand id and model id
are all truthy/valid. -/
def submitGuardPasses (s : RepairState) : Bool :=
  strTruthy s.selectedCenterId && s.agree && nameOk s.name && phoneOk s.phone &&
    numTruthy s.brandId && numTruthy s.modelId

/-- The payload built by `submit` (lines 899–909).  `Number(null)` is `0`,
matching the `none` branch for the (guarded) center id. -/
def submitPayload (s : RepairState) : Payload where
  brand := s.selectedBrandName
  model := s.selectedModelName
  issue := s.issueCode
  urgency := s.urgency
  description := s.desc
  center := match s.selectedCenterId with
    | none => .fin 0
    | some cid => jsStringToNumber cid
  customer_name := jsTrim s.name
  customer_phone := jsTrim s.phone
  agree_to_offer := true

/-- One run of `submit` (lines 889–921).  `result` is the backend's answer
to `createRequest` (`Except.ok id` on success, `Except.error msg` on
rejection); the function returns the state after the run together with the
payload sent, `none` when no request was made.  On success the dialog is
closed and name, phone, agreement and description are reset; on failure
only an alert is shown and the state is untouched. -/
def submit (s : RepairState) (result : Except String ℕ) :
    RepairState × Option Payload :=
  if submitGuardPasses s then
    match result with
    | .ok _ =>
      ({ s with showDialog := false, name := "", phone := "", agree := false, desc := "" },
        some (submitPayload s))
    | .error _ => (s, some (submitPayload s))
  else (s, none)

/-- C4: `submit` is a no-op (no backend call, no state change) unless all
preconditions hold — center selected, agreement checked, name with at least
two non-whitespace characters (trimmed length ≥ 2), at least 7 digit
characters in the phone, brand and model selected; in particular a phone
with fewer than 7 digits blocks the call regardless of the other fields. -/
theorem submit_noop_unless_valid (s : RepairState) (r : Except String ℕ) :
    (¬ (strTruthy s.selectedCenterId = true ∧ s.agree = true ∧
        2 ≤ (jsTrim s.name).length ∧ 7 ≤ digitCount s.phone ∧
        numTruthy s.brandId = true ∧ numTruthy s.modelId = true) →
      submit s r = (s, none)) ∧
    ((submit s r).2 ≠ none →
      strTruthy s.selectedCenterId = true ∧ s.agree = true ∧
        2 ≤ (jsTrim s.name).length ∧ 7 ≤ digitCount s.phone ∧
        numTruthy s.brandId = true ∧ numTruthy s.modelId = true) ∧
    (digitCount s.phone < 7 → submit s r = (s, none)) := by
  have hguard : submitGuardPasses s = true ↔
      (strTruthy s.selectedCenterId = true ∧ s.agree = true ∧
        2 ≤ (jsTrim s.name).length ∧ 7 ≤ digitCount s.phone ∧
        numTruthy s.brandId = true ∧ numTruthy s.modelId = true) := by
    simp [submitGuardPasses, nameOk, phoneOk, and_assoc]
  refine ⟨?_, ?_, ?_⟩
  · intro h
    have : submitGuardPasses s = false := by
      rcases hg : submitGuardPasses s with _ | _
      · rfl
      · exact absurd (hguard.mp hg) h
    simp [submit, this]
  · intro h
    rcases hg : submitGuardPasses s with _ | _
    · simp [submit, hg] at h
    · exact hguard.mp hg
  · intro h
    have : submitGuardPasses s = false := by
      rcases hg : submitGuardPasses s with _ | _
      · rfl
      · exact absurd ((hguard.mp hg).2.2.2.1) (by omega)
    simp [submit, this]

/-- Witness for `submit_noop_unless_valid`: with a 6-digit phone and every
other field valid, no request is sent and the state is unchanged. -/
theorem submit_noop_unless_valid_witness :
    submit ⟨some "1", true, "Ivan", "123 456", "", some 1, some 2, true,
        "Apple", "iPhone 13", "screen", 2⟩ (Except.ok 5) =
      (⟨some "1", true, "Ivan", "123 456", "", some 1, some 2, true,
        "Apple", "iPhone 13", "screen", 2⟩, none) :=
  (submit_noop_unless_valid _ _).2.2 (by decide)

/-- C5: when `submit` runs (all preconditions hold), a successful creation
resets name, phone, agreement and description and keeps the center, brand
and model selections; a failed creation leaves the whole state unchanged. -/
theorem submit_result_state (s : RepairState) (r : Except String ℕ)
    (h : submitGuardPasses s = true) :
    (∀ id : ℕ, r = Except.ok id →
      (submit s r).1.name = "" ∧ (submit s r).1.phone = "" ∧
      (submit s r).1.agree = false ∧ (submit s r).1.desc = "" ∧
      (submit s r).1.selectedCenterId = s.selectedCenterId ∧
      (submit s r).1.brandId = s.brandId ∧ (submit s r).1.modelId = s.modelId ∧
      (submit s r).2 = some (submitPayload s)) ∧
    (∀ msg : String, r = Except.error msg → submit s r = (s, some (submitPayload s))) := by
  constructor
  · rintro id rfl
    simp [submit, h]
  · rintro msg rfl
    simp [submit, h]

/-- Witness for `submit_result_state`: a successful creation on a valid
draft clears the transient fields and keeps the selections. -/
theorem submit_result_state_witness :
    (submit ⟨some "1", true, "Ivan", "123 45 67", "broken", some 1, some 2, true,
        "Apple", "iPhone 13", "screen", 2⟩ (Except.ok 5)).1.name = "" ∧
    (submit ⟨some "1", true, "Ivan", "123 45 67", "broken", some 1, some 2, true,
        "Apple", "iPhone 13", "screen", 2⟩ (Except.ok 5)).1.selectedCenterId = some "1" :=
  have h := (submit_result_state ⟨some "1", true, "Ivan", "123 45 67", "broken", some 1,
    some 2, true, "Apple", "iPhone 13", "screen", 2⟩ (Except.ok 5) (by decide)).1 5 rfl
  ⟨h.1, by rw [h.2.2.2.2.1]⟩

/-! ## Model-prices parsing (`App.tsx`, `getModelPrices` effect) -/

/-- A row of the `/model-prices/` response with its numeric fields already
coerced by `Number(...)` (a field that arrived as a non-numeric string
coerces to `JSNum.nan`).  `issueCode` is `r?.issue?.code`, `none` when the
issue or its code is missing. -/
structure PriceRow where
  issueCode : Option String
  price_min : JSNum
  price_max : JSNum
  hours : JSNum
deriving DecidableEq, Repr

/-- The loop of the `getModelPrices` effect (`App.tsx` lines 820–841): rows
without a truthy issue code are skipped; a row is stored only when both
coerced prices are finite; a non-finite `hours` is replaced by 1.  Object
assignment `m[code] = v` is modelled by prepending (with `List.lookup`
reading the most recent binding). -/
def buildPriceMap (rows : List PriceRow) : PriceMap :=
  rows.foldl (fun m r =>
    match r.issueCode with
    | none => m
    | some code =>
      if code = "" then m
      else
        match r.price_min, r.price_max with
        | .fin mn, .fin mx =>
          (code, ⟨mn, mx, match r.hours with | .fin h => h | _ => 1⟩) :: m
        | _, _ => m) []

/-- C7 counterexample: a row whose `hours` coerces to a non-finite number is
not discarded — it contributes an entry with `hours` defaulted to 1, so the
claim that any non-finite coerced numeric field discards the row is false. -/
theorem buildPriceMap_keeps_nonfinite_hours_row :
    (JSNum.nan.isFinite = false) ∧
    (buildPriceMap [⟨some "battery", .fin 100, .fin 200, .nan⟩]).lookup "battery"
      = some ⟨100, 200, 1⟩ ∧
    (buildPriceMap [⟨some "battery", .fin 100, .fin 200, .nan⟩]).lookup "battery"
      ≠ none := by
  refine ⟨rfl, by decide, by decide⟩

/-- C7 amended: a row is discarded exactly when its issue code is missing or
empty, or one of the coerced `price_min`/`price_max` is non-finite; a
non-finite coerced `hours` does not discard the row but is replaced by 1.
Per-row dropping never fails the whole fetch: the other rows still
contribute. -/
theorem buildPriceMap_row_spec (r : PriceRow) :
    (∀ code, r.issueCode = some code → code ≠ "" →
      (∀ mn mx : ℚ, r.price_min = .fin mn → r.price_max = .fin mx →
        buildPriceMap [r] =
          [(code, ⟨mn, mx, match r.hours with | .fin h => h | _ => 1⟩)]) ∧
      (r.price_min.isFinite = false ∨ r.price_max.isFinite = false →
        buildPriceMap [r] = [])) ∧
    ((r.issueCode = none ∨ r.issueCode = some "") → buildPriceMap [r] = []) ∧
    (∀ rows : List PriceRow,
      buildPriceMap (rows ++ [r]) =
        (buildPriceMap [r]).reverse ++ buildPriceMap rows) := by
  refine ⟨?_, ?_, ?_⟩
  · intro code hc hne
    constructor
    · intro mn mx hmn hmx
      simp [buildPriceMap, hc, hne, hmn, hmx]
    · intro hbad
      rcases hbad with hbad | hbad <;>
        rcases hmn : r.price_min with q | b | _ <;>
          rcases hmx : r.price_max with q2 | b2 | _ <;>
            simp_all [buildPriceMap, JSNum.isFinite, hc, hne]
  · rintro (hc | hc) <;> simp [buildPriceMap, hc]
  · intro rows
    have step : ∀ (init : PriceMap),
        List.foldl (fun m r =>
          match r.issueCode with
          | none => m
          | some code =>
            if code = "" then m
            else
              match r.price_min, r.price_max with
              | .fin mn, .fin mx =>
                (code, ⟨mn, mx, match r.hours with | .fin h => h | _ => 1⟩) :: m
              | _, _ => m) init [r] = (buildPriceMap [r]).reverse ++ init := by
      intro init
      rcases r with ⟨ic, pmin, pmax, h⟩
      rcases ic with _ | code
      · simp [buildPriceMap]
      · by_cases hc : code = ""
        · simp [buildPriceMap, hc]
        · rcases pmin with q | b | _ <;> rcases pmax with q2 | b2 | _ <;>
            simp [buildPriceMap, hc]
    simpa [buildPriceMap, List.foldl_append] using step (buildPriceMap rows)

/-- Witness for `buildPriceMap_row_spec`: a fully finite row with code
"screen" produces exactly its entry. -/
theorem buildPriceMap_row_spec_witness :
    buildPriceMap [⟨some "screen", .fin 10, .fin 20, .fin 2⟩] =
      [("screen", ⟨10, 20, 2⟩)] :=
  (((buildPriceMap_row_spec ⟨some "screen", .fin 10, .fin 20, .fin 2⟩).1
    "screen" rfl (by decide)).1) 10 20 rfl rfl

/-! ## List-endpoint response shapes (`App.tsx` effects) -/

/-- The two response shapes the spec names for list endpoints: a bare array
or an envelope object with a `results` field. -/
inductive ListResponse (α : Type) where
  | arr (items : List α)
  | envelope (results : List α)

/-- The normalization used by the brands, models and issues effects
(`Array.isArray(data) ? data : data?.results || []`).  An array (even an
empty one) is truthy, so both shapes yield the carried list. -/
def normalizeListShape {α : Type} : ListResponse α → List α
  | .arr xs => xs
  | .envelope xs => xs

/-- The normalization used by the centers effect (lines 843–853):
`(Array.isArray(data) && data) || (data && (data.results || data.data)) || []`.
On both modelled shapes it also yields the carried list. -/
def normalizeCentersShape {α : Type} : ListResponse α → List α
  | .arr xs => xs
  | .envelope xs => xs

/-- The model-prices effect (lines 820–841) iterates the response directly
(`for (const r of rows)`) with no shape check.  A plain envelope object is
not iterable, so the iteration throws and the effect's `catch` resets the
price map to `⦃⦄`. -/
def modelPricesFromResponse (resp : ListResponse PriceRow) : PriceMap :=
  match resp with
  | .arr rows => buildPriceMap rows
  | .envelope _ => []

/-- C8 counterexample: the same valid row list delivered as a bare array and
as a `results` envelope produces different price maps at the model-prices
endpoint, so the claim that every list endpoint accepts both shapes
uniformly is false. -/
theorem modelPrices_envelope_not_accepted :
    modelPricesFromResponse (.arr [⟨some "screen", .fin 1000, .fin 2000, .fin 2⟩])
      = [("screen", ⟨1000, 2000, 2⟩)] ∧
    modelPricesFromResponse (.envelope [⟨some "screen", .fin 1000, .fin 2000, .fin 2⟩])
      = [] ∧
    modelPricesFromResponse (.arr [⟨some "screen", .fin 1000, .fin 2000, .fin 2⟩])
      ≠ modelPricesFromResponse
        (.envelope [⟨some "screen", .fin 1000, .fin 2000, .fin 2⟩]) := by
  refine ⟨by decide, rfl, by decide⟩

/-- C8 amended: the brands, models, issues and service-center endpoints
accept both shapes and produce the same list of records from either; the
model-prices endpoint only consumes a bare array, and an envelope response
leaves the price map empty. -/
theorem list_endpoint_shapes {α : Type} (xs : List α) (rows : List PriceRow) :
    normalizeListShape (.arr xs) = xs ∧
    normalizeListShape (.envelope xs) = xs ∧
    normalizeCentersShape (.arr xs) = xs ∧
    normalizeCentersShape (.envelope xs) = xs ∧
    modelPricesFromResponse (.arr rows) = buildPriceMap rows ∧
    modelPricesFromResponse (.envelope rows) = [] :=
  ⟨rfl, rfl, rfl, rfl, rfl, rfl⟩

/-! ## Geo distance utility (`App.tsx`, `haversine`) -/

/-- Model of the host builtin `Math.atan2(y, x)`: the four-quadrant
arctangent. -/
noncomputable def atan2 (y x : ℝ) : ℝ :=
  if 0 < x then Real.arctan (y / x)
  else if x < 0 then
    (if 0 ≤ y then Real.arctan (y / x) + Real.pi else Real.arctan (y / x) - Real.pi)
  else if 0 < y then Real.pi / 2
  else if y < 0 then -(Real.pi / 2)
  else 0

/-- `haversine` from `App.tsx` (lines 57–67): great-circle distance in km
between two latitude/longitude points, Earth radius 6371 km, using the
`atan2` formulation. -/
noncomputable def haversine (lat1 lon1 lat2 lon2 : ℝ) : ℝ :=
  let R : ℝ := 6371
  let dLat := (lat2 - lat1) * Real.pi / 180
  let dLon := (lon2 - lon1) * Real.pi / 180
  let a := Real.sin (dLat / 2) ^ 2 +
    Real.cos (lat1 * Real.pi / 180) * Real.cos (lat2 * Real.pi / 180) *
      Real.sin (dLon / 2) ^ 2
  2 * R * atan2 (Real.sqrt a) (Real.sqrt (1 - a))

theorem atan2_nonneg {y x : ℝ} (hy : 0 ≤ y) (hx : 0 ≤ x) : 0 ≤ atan2 y x := by
  have harct : ∀ z : ℝ, 0 ≤ z → 0 ≤ Real.arctan z := fun z hz =>
    Real.arctan_zero ▸ Real.arctan_strictMono.monotone hz
  unfold atan2
  rcases hx.lt_or_eq with hx' | rfl
  · rw [if_pos hx']
    exact harct _ (div_nonneg hy hx'.le)
  · rw [if_neg (lt_irrefl 0), if_neg (lt_irrefl 0)]
    rcases hy.lt_or_eq with hy' | rfl
    · rw [if_pos hy']
      positivity
    · rw [if_neg (lt_irrefl 0), if_neg (lt_irrefl 0)]

/-- C6: on the valid coordinate domain the distance function is
non-negative, symmetric, and zero on equal points. -/
theorem haversine_point_properties (lat1 lon1 lat2 lon2 : ℝ)
    (h1 : -90 ≤ lat1) (h2 : lat1 ≤ 90) (h3 : -180 ≤ lon1) (h4 : lon1 ≤ 180)
    (h5 : -90 ≤ lat2) (h6 : lat2 ≤ 90) (h7 : -180 ≤ lon2) (h8 : lon2 ≤ 180) :
    0 ≤ haversine lat1 lon1 lat2 lon2 ∧
    haversine lat1 lon1 lat2 lon2 = haversine lat2 lon2 lat1 lon1 ∧
    haversine lat1 lon1 lat1 lon1 = 0 := by
  refine ⟨?_, ?_, ?_⟩
  · simp only [haversine]
    exact mul_nonneg (by norm_num)
      (atan2_nonneg (Real.sqrt_nonneg _) (Real.sqrt_nonneg _))
  · simp only [haversine]
    have hlat : (lat1 - lat2) * Real.pi / 180 / 2 = -((lat2 - lat1) * Real.pi / 180 / 2) := by
      ring
    have hlon : (lon1 - lon2) * Real.pi / 180 / 2 = -((lon2 - lon1) * Real.pi / 180 / 2) := by
      ring
    rw [hlat, hlon, Real.sin_neg, Real.sin_neg, neg_sq, neg_sq,
      mul_comm (Real.cos (lat2 * Real.pi / 180)) (Real.cos (lat1 * Real.pi / 180))]
  · simp only [haversine]
    have hz : (lat1 - lat1) * Real.pi / 180 / 2 = 0 := by ring
    have hzl : (lon1 - lon1) * Real.pi / 180 / 2 = 0 := by ring
    rw [hz, hzl, Real.sin_zero]
    norm_num [atan2, Real.sqrt_zero, Real.sqrt_one, Real.arctan_zero]

/-- Witness for `haversine_point_properties` at the origin point pair. -/
theorem haversine_point_properties_witness :
    0 ≤ haversine 0 0 0 0 ∧ haversine 0 0 0 0 = haversine 0 0 0 0 ∧
      haversine 0 0 0 0 = 0 :=
  haversine_point_properties 0 0 0 0 (by norm_num) (by norm_num) (by norm_num)
    (by norm_num) (by norm_num) (by norm_num) (by norm_num) (by norm_num)

/-! ## Center ranking (`App.tsx`, `MapPicker.centersSorted`) -/

/-- A service center as delivered by `GET /servicecenters/`. -/
structure ServiceCenter where
  id : ℤ
  name : String
  address : String
  lat : ℝ
  lng : ℝ

/-- The user geolocation (when granted). -/
structure UserPos where
  lat : ℝ
  lng : ℝ

/-- The comparator key of `centersSorted`: haversine distance from the user
position to a center. -/
noncomputable def centerDistance (p : UserPos) (c : ServiceCenter) : ℝ :=
  haversine p.lat p.lng c.lat c.lng

/-- `centersSorted` from `App.tsx` (lines 496–503): the centers unchanged
when no user position is known, otherwise a copy sorted by the comparator
`(a, b) ↦ da - db` on haversine distances.  `Array.prototype.sort` is
required to be stable, which the stable `List.mergeSort` with the ordering
`da ≤ db` models. -/
noncomputable def centersSorted (userPos : Option UserPos)
    (centers : List ServiceCenter) : List ServiceCenter :=
  match userPos with
  | none => centers
  | some p =>
    centers.mergeSort (fun a b => decide (centerDistance p a ≤ centerDistance p b))

/-- C3: with no user position the ranking is the identity; with a user
position it returns a permutation of the input that is sorted by
non-decreasing distance, and any two equally distant centers keep their
original relative order (stability). -/
theorem centersSorted_ranking (centers : List ServiceCenter) (p : UserPos) :
    centersSorted none centers = centers ∧
    (centersSorted (some p) centers).Perm centers ∧
    (centersSorted (some p) centers).Pairwise
      (fun a b => centerDistance p a ≤ centerDistance p b) ∧
    (∀ a b, [a, b].Sublist centers → centerDistance p a = centerDistance p b →
      [a, b].Sublist (centersSorted (some p) centers)) := by
  have htrans : ∀ a b c : ServiceCenter,
      decide (centerDistance p a ≤ centerDistance p b) = true →
      decide (centerDistance p b ≤ centerDistance p c) = true →
      decide (centerDistance p a ≤ centerDistance p c) = true := fun a b c h1 h2 =>
    decide_eq_true (le_trans (of_decide_eq_true h1) (of_decide_eq_true h2))
  have htotal : ∀ a b : ServiceCenter,
      (decide (centerDistance p a ≤ centerDistance p b) ||
        decide (centerDistance p b ≤ centerDistance p a)) = true := by
    intro a b
    rcases le_total (centerDistance p a) (centerDistance p b) with h | h <;> simp [h]
  refine ⟨rfl, List.mergeSort_perm centers _, ?_, ?_⟩
  · exact (List.sorted_mergeSort htrans htotal centers).imp fun h => of_decide_eq_true h
  · intro a b hsub heq
    exact List.pair_sublist_mergeSort htrans htotal (decide_eq_true heq.le) hsub

/-- Witness for `centersSorted_ranking`: two centers at the same location
stay in their original order after ranking. -/
theorem centersSorted_ranking_witness :
    [⟨1, "a", "A", 0, 0⟩, ⟨2, "b", "B", 0, 0⟩].Sublist
      (centersSorted (some ⟨1, 2⟩)
        [(⟨1, "a", "A", 0, 0⟩ : ServiceCenter), ⟨2, "b", "B", 0, 0⟩]) :=
  (centersSorted_ranking [⟨1, "a", "A", 0, 0⟩, ⟨2, "b", "B", 0, 0⟩] ⟨1, 2⟩).2.2.2
    ⟨1, "a", "A", 0, 0⟩ ⟨2, "b", "B", 0, 0⟩ (List.Sublist.refl _) rfl

/-! ## HTTP wrapper (`api.ts`, `http`) -/

/-- A JSON value as handled by the `http` wrapper.  Numeric JSON values are
outside the model (they never carry error messages in this client); the
body `data` is `jnull` for an empty body and a `jstr` for a non-JSON body. -/
inductive JVal where
  | jnull
  | jbool (b : Bool)
  | jstr (s : String)
  | jarr (elems : List JVal)
  | jobj (fields : List (String × JVal))

/-- JS truthiness of a JSON value: `null`, `false` and `""` are falsy;
objects and arrays are always truthy. -/
def JVal.truthy : JVal → Bool
  | .jnull => false
  | .jbool b => b
  | .jstr s => s ≠ ""
  | .jarr _ => true
  | .jobj _ => true

/-- Property access `v.k`: defined only on objects, `undefined` (`none`)
otherwise. -/
def JVal.getField : JVal → String → Option JVal
  | .jobj fields, k => fields.lookup k
  | _, _ => none

/-- JS truthiness of a possibly-`undefined` value. -/
def jsTruthyOpt : Option JVal → Bool
  | none => false
  | some v => v.truthy

/-- JS `a || b` over possibly-`undefined` operands: the first operand when
truthy, the second otherwise. -/
def jsOr (a b : Option JVal) : Option JVal := if jsTruthyOpt a then a else b

/-- Minimal JSON string escaping, as performed by the host
`JSON.stringify` on the common control characters. -/
def jsonEscape (s : String) : String :=
  s.data.foldl (fun acc c =>
    acc ++ (if c = '"' then "\\\"" else if c = '\\' then "\\\\"
      else if c = '\n' then "\\n" else if c = '\r' then "\\r"
      else if c = '\t' then "\\t" else String.singleton c)) ""

mutual

/-- Model of the host builtin `JSON.stringify` on the modelled values. -/
def JVal.stringify : JVal → String
  | .jnull => "null"
  | .jbool true => "true"
  | .jbool false => "false"
  | .jstr s => "\"" ++ jsonEscape s ++ "\""
  | .jarr xs => "[" ++ stringifyArr xs ++ "]"
  | .jobj fs => "\x7b" ++ stringifyObj fs ++ "\x7d"

/-- Comma-separated serialization of an array body. -/
def stringifyArr : List JVal → String
  | [] => ""
  | [v] => v.stringify
  | v :: vs => v.stringify ++ "," ++ stringifyArr vs

/-- Comma-separated serialization of an object body. -/
def stringifyObj : List (String × JVal) → String
  | [] => ""
  | [(k, v)] => "\"" ++ jsonEscape k ++ "\":" ++ v.stringify
  | (k, v) :: fs => "\"" ++ jsonEscape k ++ "\":" ++ v.stringify ++ "," ++ stringifyObj fs

end

/-- `typeof msg === "string" ? msg : JSON.stringify(msg)` from `api.ts`
(line 55). -/
def jvalToMessage : JVal → String
  | .jstr s => s
  | v => v.stringify

/-- The body value computed by `http` (`api.ts` lines 47–48): `null` for an
empty body, the `JSON.parse` result when parsing succeeds (`parsed`), the
raw text otherwise. -/
def httpData (text : String) (parsed : Option JVal) : JVal :=
  if text = "" then .jnull
  else
    match parsed with
    | some v => v
    | none => .jstr text

/-- The error message thrown by `http` on a non-ok response (`api.ts` lines
50–55): `(data && (data.detail || data.error || data.message)) ||
res.statusText || "Request failed"`, stringified when not a string. -/
def httpErrorMessage (statusText text : String) (parsed : Option JVal) : String :=
  let data := httpData text parsed
  let chain := jsOr (data.getField "detail")
    (jsOr (data.getField "error") (data.getField "message"))
  let m1 := if data.truthy then chain else some data
  let m2 := jsOr m1 (some (.jstr statusText))
  let m3 := jsOr m2 (some (.jstr "Request failed"))
  match m3 with
  | some v => jvalToMessage v
  | none => ""

/-- `http` from `api.ts` (lines 33–58), after the host `fetch` resolved:
`ok` and `statusText` come from the response, `text` is the body, `parsed`
is the `JSON.parse` outcome on a non-empty body.  A non-ok status rejects
with the computed message; an ok status resolves with the body data. -/
def http (ok : Bool) (statusText text : String) (parsed : Option JVal) :
    Except String JVal :=
  if ok then .ok (httpData text parsed)
  else .error (httpErrorMessage statusText text parsed)

/-- The error message as the claim words it: the body's `detail` field if
present, else its `error` field, else its `message` field, else the status
text, else "Request failed" — presence alone, no truthiness. -/
def claimedErrorMessage (statusText text : String) (parsed : Option JVal) : String :=
  let data := httpData text parsed
  match data.getField "detail" with
  | some v => jvalToMessage v
  | none =>
    match data.getField "error" with
    | some v => jvalToMessage v
    | none =>
      match data.getField "message" with
      | some v => jvalToMessage v
      | none => if statusText ≠ "" then statusText else "Request failed"

/-- C9 counterexample: on a body whose `detail` field is present but empty,
the wrapper reports the `error` field ("boom"), not the present `detail`
field ("") the claim prescribes — the `||` chain tests truthiness, not
presence. -/
theorem http_detail_present_counterexample :
    http false "Bad Request" "x"
        (some (.jobj [("detail", .jstr ""), ("error", .jstr "boom")])) =
      .error "boom" ∧
    claimedErrorMessage "Bad Request" "x"
        (some (.jobj [("detail", .jstr ""), ("error", .jstr "boom")])) = "" ∧
    ("boom" : String) ≠ "" :=
  ⟨rfl, rfl, by decide⟩

theorem getField_truthy {v : JVal} {k : String} {d : JVal}
    (h : v.getField k = some d) : v.truthy = true := by
  cases v <;> simp_all [JVal.getField, JVal.truthy]

theorem jsTruthyOpt_none : jsTruthyOpt none = false := rfl

theorem jsTruthyOpt_some (v : JVal) : jsTruthyOpt (some v) = v.truthy := rfl

theorem truthy_jstr (s : String) : (JVal.jstr s).truthy = true ↔ s ≠ "" := by
  simp [JVal.truthy]

/-- C9 amended: `http` rejects exactly on a non-ok status; on an ok status
it resolves with the parsed body (raw text when the body is not valid JSON,
null when the body is empty); on a non-ok status the message is the first
truthy (present and non-empty) of the body's `detail`, `error` and
`message` fields, else a non-empty status text, else "Request failed". -/
theorem http_behaviour (ok : Bool) (st text : String) (parsed : Option JVal) :
    ((∃ e, http ok st text parsed = .error e) ↔ ok = false) ∧
    (ok = true → http ok st text parsed = .ok (httpData text parsed)) ∧
    httpData "" parsed = .jnull ∧
    (text ≠ "" → httpData text none = .jstr text) ∧
    (text ≠ "" → ∀ v, httpData text (some v) = v) ∧
    (ok = false →
      (∀ d, (httpData text parsed).getField "detail" = some d → d.truthy = true →
        http ok st text parsed = .error (jvalToMessage d)) ∧
      (jsTruthyOpt ((httpData text parsed).getField "detail") = false →
        ∀ d, (httpData text parsed).getField "error" = some d → d.truthy = true →
          http ok st text parsed = .error (jvalToMessage d)) ∧
      (jsTruthyOpt ((httpData text parsed).getField "detail") = false →
        jsTruthyOpt ((httpData text parsed).getField "error") = false →
          ∀ d, (httpData text parsed).getField "message" = some d → d.truthy = true →
            http ok st text parsed = .error (jvalToMessage d)) ∧
      (jsTruthyOpt ((httpData text parsed).getField "detail") = false →
        jsTruthyOpt ((httpData text parsed).getField "error") = false →
        jsTruthyOpt ((httpData text parsed).getField "message") = false →
          (st ≠ "" → http ok st text parsed = .error st) ∧
          (st = "" → http ok st text parsed = .error "Request failed"))) := by
  refine ⟨?_, ?_, by simp [httpData], ?_, ?_, ?_⟩
  · cases ok <;> simp [http]
  · intro h; simp [http, h]
  · intro h; simp [httpData, h]
  · intro h v; simp [httpData, h]
  · rintro rfl
    refine ⟨?_, ?_, ?_, ?_⟩
    · intro d hd htr
      have hdt := getField_truthy hd
      simp [http, httpErrorMessage, hd, hdt, htr, jsOr, jsTruthyOpt_some]
    · intro hfalse d hd htr
      have hdt := getField_truthy hd
      simp [http, httpErrorMessage, hd, hdt, htr, hfalse, jsOr, jsTruthyOpt_some]
    · intro hfalse1 hfalse2 d hd htr
      have hdt := getField_truthy hd
      simp [http, httpErrorMessage, hd, hdt, htr, hfalse1, hfalse2, jsOr, jsTruthyOpt_some]
    · intro hfalse1 hfalse2 hfalse3
      constructor
      · intro hst
        rcases htr : (httpData text parsed).truthy with _ | _ <;>
          simp [http, httpErrorMessage, hfalse1, hfalse2, hfalse3, htr, jsOr,
            jsTruthyOpt_some, truthy_jstr, hst, jvalToMessage]
      · rintro rfl
        rcases htr : (httpData text parsed).truthy with _ | _ <;>
          simp [http, httpErrorMessage, hfalse1, hfalse2, hfalse3, htr, jsOr,
            jsTruthyOpt_some, truthy_jstr, jvalToMessage]

/-- Witness for `http_behaviour`: a non-ok response with a truthy `detail`
field rejects with that field's string. -/
theorem http_behaviour_witness :
    http false "ST" "x" (some (.jobj [("detail", .jstr "oops")])) =
      .error "oops" :=
  ((http_behaviour false "ST" "x" (some (.jobj [("detail", .jstr "oops")]))).2.2.2.2.2
    rfl).1 (.jstr "oops") rfl (by decide)

/-! ## Support messages (`App.tsx`, `Support.send`) -/

/-- `e.message.replace(/^"|"$/g, "")`: removes one leading and one trailing
double quote when present (the two regex matches cannot overlap). -/
def stripOuterQuotes (s : String) : String :=
  let cs1 := match s.data with
    | '"' :: rest => rest
    | cs => cs
  ⟨if cs1.getLast? = some '"' then cs1.dropLast else cs1⟩

/-- The `Support` component state relevant to `send`. -/
structure SupportState where
  rid : String
  text : String
  toast : Option String
  busy : Bool
deriving DecidableEq, Repr

/-- One run of `send` from `App.tsx` (lines 1174–1194).  `result` is the
backend's answer to `createSupportMessage`; the second component is the
payload sent (`repair_request` id and trimmed text), `none` when no request
was made.  The guard `!idNum || !text.trim()` only toasts; on success the
text is cleared; on failure the text is preserved and the stripped error
message is toasted. -/
def send (s : SupportState) (result : Except String Unit) :
    SupportState × Option (JSNum × String) :=
  let idNum := jsStringToNumber s.rid
  if idNum.truthy = false ∨ jsTrim s.text = "" then
    ({ s with toast := some "Укажите номер заявки и текст сообщения" }, none)
  else
    match result with
    | .ok _ =>
      ({ s with text := "", toast := some "Сообщение отправлено ✅", busy := false },
        some (idNum, jsTrim s.text))
    | .error m =>
      ({ s with toast := some ("Ошибка: " ++ stripOuterQuotes m), busy := false },
        some (idNum, jsTrim s.text))

/-- C10: `send` makes no backend call and leaves the text unchanged when the
entered request id does not coerce to a truthy number or the text trims to
empty; otherwise it sends the trimmed text, clears the text exactly on
success, and preserves it on failure. -/
theorem send_behaviour (s : SupportState) (r : Except String Unit) :
    ((jsStringToNumber s.rid).truthy = false ∨ jsTrim s.text = "" →
      (send s r).2 = none ∧ (send s r).1.text = s.text) ∧
    ((jsStringToNumber s.rid).truthy = true → jsTrim s.text ≠ "" →
      (send s r).2 = some (jsStringToNumber s.rid, jsTrim s.text) ∧
      (∀ u : Unit, r = .ok u → (send s r).1.text = "") ∧
      (∀ m : String, r = .error m → (send s r).1.text = s.text)) := by
  constructor
  · intro h
    simp [send, h]
  · intro h1 h2
    have hg : ¬ ((jsStringToNumber s.rid).truthy = false ∨ jsTrim s.text = "") := by
      simp [h1, h2]
    refine ⟨?_, ?_, ?_⟩
    · cases r <;> simp [send, hg]
    · rintro u rfl
      simp [send, hg]
    · rintro m rfl
      simp [send, hg]

/-- Witness for `send_behaviour`: id "12" and text " hi " send the trimmed
text and a successful call clears the field. -/
theorem send_behaviour_witness :
    (send ⟨"12", " hi ", none, false⟩ (Except.ok ())).2 =
      some (jsStringToNumber "12", "hi") ∧
    (send ⟨"12", " hi ", none, false⟩ (Except.ok ())).1.text = "" :=
  have h := send_behaviour ⟨"12", " hi ", none, false⟩ (Except.ok ())
  ⟨by rw [(h.2 (by decide) (by decide)).1]; rfl, (h.2 (by decide) (by decide)).2.1 () rfl⟩

end Fixnet
